import Mathlib

/-!
Verification of the CP2B multi-criteria scoring engine against its
Google Earth Engine scripts.

The numeric computations of the scripts (server-side `ee.Number`
arithmetic on exact decimal coefficients) are embedded over `ℚ`.
Components that exist in the repository only as commented-out templates
or placeholder stubs are modelled from the specification text, as noted
on each such definition.
-/

namespace CP2B

/-- A residue class of the `crops` registry in
`Google_Earth_Engine_CORRECTED.js` (lines 26-126).  The source field
`class` is named `cls` here (`class` is a Lean keyword); fields are kept
in the order the script multiplies them.  For `pasture` the field
`annual_manure_ton_ha` of the script plays the role of `productivity_ton_ha` (the same
`areaHa * coefficient * biogas_factor` chain, lines 154-158). -/
structure Crop where
  cls : Nat
  productivity_ton_ha : ℚ
  biogas_factor_nm3_ton : ℚ
  seasonal_factor : ℚ
  methane_content : ℚ

/-- Entry `crops.pasture`: class 15, `annual_manure_ton_ha = 2.5 * 10 * 365 / 1000`,
`biogas_factor_nm3_ton = 200`, `seasonal_factor = 1.0`, `methane_content = 0.60`. -/
def pasture : Crop := ⟨15, 2.5 * 10 * 365 / 1000, 200, 1.0, 0.60⟩

/-- Entry `crops.sugarcane`: class 20, productivity 70.23, factor 94,
seasonal 0.75, methane 0.55. -/
def sugarcane : Crop := ⟨20, 70.23, 94, 0.75, 0.55⟩

/-- Entry `crops.soy`: class 39, productivity 2.84, factor 215,
seasonal 0.4, methane 0.50. -/
def soy : Crop := ⟨39, 2.84, 215, 0.4, 0.50⟩

/-- Entry `crops.corn`: class 39 (same MapBiomas class as soy, rotation),
productivity 7.85, factor 225, seasonal 0.5, methane 0.52. -/
def corn : Crop := ⟨39, 7.85, 225, 0.5, 0.52⟩

/-- Entry `crops.rice`: class 40, productivity 7.11, factor 220,
seasonal 0.8, methane 0.55. -/
def rice : Crop := ⟨40, 7.11, 220, 0.8, 0.55⟩

/-- Entry `crops.coffee`: class 46, productivity 10.43, factor 310,
seasonal 0.4, methane 0.62. -/
def coffee : Crop := ⟨46, 10.43, 310, 0.4, 0.62⟩

/-- Entry `crops.citrus`: class 47, productivity 99.00, factor 20.90,
seasonal 0.6, methane 0.58. -/
def citrus : Crop := ⟨47, 99.00, 20.90, 0.6, 0.58⟩

/-- The `crops` registry in the iteration order of
`Object.keys(crops).forEach` in `calculateBiomassInBuffer_CORRECTED`. -/
def cropRegistry : List Crop := [pasture, sugarcane, soy, corn, rice, coffee, citrus]

/-- The `methane_potential` of one crop in `calculateBiomassInBuffer_CORRECTED`
(lines 151-172): `annualProduction = areaHa * productivity`;
`biogas_potential_m3 = annualProduction * biogas_factor`;
`seasonal_potential = biogas_potential_m3 * seasonal_factor`;
`methane_potential = seasonal_potential * methane_content`. -/
def cropMethanePotential (c : Crop) (areaHa : ℚ) : ℚ :=
  areaHa * c.productivity_ton_ha * c.biogas_factor_nm3_ton * c.seasonal_factor
    * c.methane_content

/-- The area table of a unit measurement: MapBiomas land-use class code →
hectares inside the buffer.  In the script the area for a crop is the
pixel area of `mapbiomas.eq(crop.class)` in the buffer, so two crops
with the same class code read the same hectares. -/
def AreaByClass : Type := Nat → ℚ

/-- Accumulation of `totalMethaneM3` over the crop registry
(`totalMethaneM3 = totalMethaneM3.add(methane_potential)`, line 182). -/
def totalMethanePotential (area : AreaByClass) : ℚ :=
  (cropRegistry.map (fun c => cropMethanePotential c (area c.cls))).sum

/-- The quantity `biomass_score` as the script computes it (line 188):
`totalMethaneM3.divide(1000)` with the comment `// Normalizar`. -/
def biomass_score (area : AreaByClass) : ℚ :=
  totalMethanePotential area / 1000

/-- The biomass score as §4.1 of the spec describes it, for comparison
with `biomass_score`: min-max scaling of the total methane
potential of the unit relative to the maximum total observed across the population
in the same run, floored at 0 (so the maximal unit scores 100). -/
def biomass_score_minmax (area : AreaByClass) (maxTotal : ℚ) : ℚ :=
  max (100 * totalMethanePotential area / maxTotal) 0

/-- A concrete single-unit population: 1000 ha of sugarcane (class 20)
in the buffer and nothing else. -/
def sugarcaneOnlyArea : AreaByClass := fun c => if c = 20 then (1000 : ℚ) else 0

/-- One entry of the `infrastructure` registry in
`src/streamlit/utils/Google_Earth_Engine_Suffering.js` (lines 18-59):
the asset key and its MCDA weight. -/
structure InfraRegistryEntry where
  key : String
  weight : ℚ

/-- The `infrastructure` registry of `Google_Earth_Engine_Suffering.js`,
in source order, with the weights written there (the comment on line 17
marks `gasoduto_distribuicao` as a later addition). -/
def infrastructureRegistry : List InfraRegistryEntry :=
  [⟨"subestacoes", 0.20⟩,
   ⟨"linhas_transmissao", 0.15⟩,
   ⟨"rodovias_federais", 0.25⟩,
   ⟨"rodovias_estaduais", 0.20⟩,
   ⟨"outros_trechos", 0.10⟩,
   ⟨"gasodutos", 0.05⟩,
   ⟨"gasoduto_distribuicao", 0.08⟩,
   ⟨"aerodromos", 0.05⟩]

/-- The sum of the relative weights of the loaded infrastructure registry. -/
def infrastructureWeightSum : ℚ :=
  (infrastructureRegistry.map (fun e => e.weight)).sum

/-- Modelled from the spec (§4.2): the repository has no implemented
`InfrastructureScorer`; the per-category distance-decay score.
`distance_score = 100` if `distance_km ≤ min_threshold`, `0` if
`distance_km ≥ max_distance`, otherwise `100 * (1 - distance_km / max_distance)`. -/
def distance_score (min_threshold max_distance distance_km : ℚ) : ℚ :=
  if distance_km ≤ min_threshold then 100
  else if max_distance ≤ distance_km then 0
  else 100 * (1 - distance_km / max_distance)

/-- The scoring parameters of an infrastructure category (spec data model §3:
relative weight and distance-decay parameters). -/
structure InfraCat where
  weight : ℚ
  min_threshold : ℚ
  max_distance : ℚ

/-- Modelled from the spec (§4.2): the score of a category given an optional
recorded distance; a missing distance (no measurement) scores 0 for the
category. -/
def categoryScore (c : InfraCat) (d : Option ℚ) : ℚ :=
  match d with
  | none => 0
  | some dk => distance_score c.min_threshold c.max_distance dk

/-- Modelled from the spec (§4.2): the weighted
sum of the infrastructure pillar over all categories of the registry (weights pre-normalized), each
category contributing `weight * categoryScore` whether or not its
distance was measured. -/
def infrastructureScoreRaw (entries : List (InfraCat × Option ℚ)) : ℚ :=
  (entries.map (fun e => e.1.weight * categoryScore e.1 e.2)).sum

/-- Modelled from the spec (§4.5): categories with no recorded distance
are recorded as missing for confidence purposes. -/
def missingCount (entries : List (InfraCat × Option ℚ)) : Nat :=
  (entries.filter (fun e => e.2.isNone)).length

/-- The sentinel distance the extraction writes for a category whose
distance computation threw: it assigns -1 to the dist km field
(`src/GEE_Data_Extraction_Only.js`, line 140). -/
def errorSentinelDistanceKm : ℚ := -1

/-- The `restrictions` registry of `Google_Earth_Engine_Suffering.js`
(lines 62-100): asset key and pre-defined `restriction_level`. -/
def restrictionRegistry : List (String × ℚ) :=
  [("ucs_protecao_integral", 10),
   ("ucs_uso_sustentavel", 7),
   ("terras_indigenas", 10),
   ("quilombolas", 8),
   ("assentamentos", 5),
   ("perimetros_urbanos", 9),
   ("exclusao_aeroportuaria", 10)]

/-- The observation of one restriction category for a unit: overlap presence,
its pre-defined severity level, and the configured importance (spec
§4.3, importance defaults to 1). -/
structure RestrictionHit where
  present : Bool
  severity : ℚ
  importance : ℚ := 1

/-- Modelled from the spec (§4.3): `calculateRestrictionScores` in the
repository is a placeholder that always writes
`total_restriction_score = 0` with the real logic commented out; the
cumulative penalty is the sum over categories with `present = true` of
`severity_level * category_importance`. -/
def restrictionPenalty (rs : List RestrictionHit) : ℚ :=
  (rs.map (fun r => if r.present then r.severity * r.importance else 0)).sum

/-- Modelled from the spec (§4.3): the restriction pillar score starts
at 100, subtracts the cumulative penalty and is floored at 0. -/
def restrictionScore (rs : List RestrictionHit) : ℚ :=
  max (100 - restrictionPenalty rs) 0

/-- The only construction failure of the weight-profile manager the spec
names: `InvalidWeightError` (§4.4, §7). -/
inductive WeightError where
  | invalidWeight
deriving DecidableEq

/-- Modelled from the spec (§3, §4.4): a validated, immutable named
weight profile — three top-level pillar weights plus the infrastructure
sub-weight vector.  The function `calculateMCDAScores` of the repository hard-codes
one weight set and performs no validation. -/
structure WeightProfile where
  top : List ℚ
  infra : List ℚ
  name : String

/-- Modelled from the spec (§4.4): the default validation tolerance 1e-3. -/
def weightTolerance : ℚ := 1e-3

/-- A weight set sums to 1.0 within the tolerance. -/
def sumsToOne (ws : List ℚ) : Prop := |ws.sum - 1| ≤ weightTolerance

/-- A weight set contains a negative value. -/
def hasNegative (ws : List ℚ) : Prop := ∃ w ∈ ws, w < 0

/-- Decidable validity check of one weight set: sums to 1.0 within
tolerance and has no negative entry. -/
def validWeightSet (ws : List ℚ) : Bool :=
  decide (|ws.sum - 1| ≤ weightTolerance) && ws.all (fun w => decide (0 ≤ w))

/-- Modelled from the spec (§4.4):
`create_profile(top_level_weights, infra_subweights, name)` fails with
`InvalidWeightError` if either weight set does not sum to 1.0 within
tolerance or contains a negative value; on success it stores the weights
unchanged (no renormalization, no clamping). -/
def create_profile (top infra : List ℚ) (name : String) :
    Except WeightError WeightProfile :=
  if validWeightSet top && validWeightSet infra then
    Except.ok ⟨top, infra, name⟩
  else
    Except.error WeightError.invalidWeight

/-- Modelled from the spec (§4.5): the repository has no implemented
`DataCompletenessTracker`; the overall confidence reported with a
composite result is the minimum of the three pillar confidences. -/
def overallConfidence (biomassConf infraConf restrictionConf : ℚ) : ℚ :=
  min biomassConf (min infraConf restrictionConf)

end CP2B

namespace CP2B

/-- C2: for a residue class with area `a`, productivity `p`, biogas
factor `b`, seasonal factor `s` and methane fraction `m`, the methane
potential equals `a * p * b * s * m`; for sugarcane at 100 ha this is
`100 * 70.23 * 94 * 0.75 * 0.55 = 272316.825` (stated in the spec as about 272,600 m³);
and the total methane potential of the unit is the sum of this product over
all classes of the registry. -/
theorem biomass_methane_chain :
    (∀ (cl : Nat) (p b s m a : ℚ),
      cropMethanePotential ⟨cl, p, b, s, m⟩ a = a * p * b * s * m)
    ∧ cropMethanePotential sugarcane 100 = 100 * 70.23 * 94 * 0.75 * 0.55
    ∧ cropMethanePotential sugarcane 100 = 272316.825
    ∧ (∀ area : AreaByClass, totalMethanePotential area =
        cropMethanePotential pasture (area 15)
        + cropMethanePotential sugarcane (area 20)
        + cropMethanePotential soy (area 39)
        + cropMethanePotential corn (area 39)
        + cropMethanePotential rice (area 40)
        + cropMethanePotential coffee (area 46)
        + cropMethanePotential citrus (area 47)) := by
  refine ⟨fun cl p b s m a => rfl, rfl, ?_, ?_⟩
  · norm_num [cropMethanePotential, sugarcane]
  · intro area
    simp only [totalMethanePotential, cropRegistry, List.map_cons, List.map_nil,
      List.sum_cons, List.sum_nil, pasture, sugarcane, soy, corn, rice, coffee, citrus]
    ring

/-- C1 counterexample: the biomass pillar score the script computes is
`totalMethaneM3 / 1000`, not min-max scaling against the population
maximum: for the single-unit population with 1000 ha of sugarcane the
score of the script is 2723.16825, which exceeds 100 and differs from the
min-max score (which would be 100 for the maximal unit of the population). -/
theorem biomass_score_exceeds_100 :
    ¬ (biomass_score sugarcaneOnlyArea ≤ 100)
    ∧ biomass_score sugarcaneOnlyArea
      ≠ biomass_score_minmax sugarcaneOnlyArea
          (totalMethanePotential sugarcaneOnlyArea) := by
  constructor
  · norm_num [biomass_score, totalMethanePotential, cropRegistry, cropMethanePotential,
      pasture, sugarcane, soy, corn, rice, coffee, citrus, sugarcaneOnlyArea]
  · norm_num [biomass_score, biomass_score_minmax, totalMethanePotential, cropRegistry,
      cropMethanePotential, pasture, sugarcane, soy, corn, rice, coffee, citrus,
      sugarcaneOnlyArea, max_def]

/-- C1 amended: the biomass pillar score equals the total methane
potential of the unit divided by 1000 — a fixed rescaling, with no floor, no cap at
100 and no dependence on the population maximum — so it preserves
exactly the ranking induced by the total methane potential. -/
theorem biomass_score_is_scaled_total :
    ∀ a b : AreaByClass,
      1000 * biomass_score a = totalMethanePotential a
      ∧ (biomass_score a ≤ biomass_score b ↔
          totalMethanePotential a ≤ totalMethanePotential b) := by
  intro a b
  constructor
  · unfold biomass_score
    field_simp
  · unfold biomass_score
    exact div_le_div_iff_of_pos_right (by norm_num)

/-- C3: the relative weights of the loaded infrastructure registry sum
to 1.08, not 1.0; the seven categories other than the later-added
`gasoduto_distribuicao` sum to exactly 1.0. -/
theorem infrastructure_weights_sum_bug :
    infrastructureWeightSum = 1.08
    ∧ infrastructureWeightSum ≠ 1
    ∧ ((infrastructureRegistry.filter
          (fun e => e.key != "gasoduto_distribuicao")).map
        (fun e => e.weight)).sum = 1 := by
  refine ⟨?_, ?_, ?_⟩
  · norm_num [infrastructureWeightSum, infrastructureRegistry]
  · norm_num [infrastructureWeightSum, infrastructureRegistry]
  · simp [infrastructureRegistry]
    norm_num

/-- C10: soy and corn both map to MapBiomas class 39, so the class-39
hectares of any unit measurement enter the total methane potential
twice — once with soy coefficients and once with corn coefficients — on
top of the contribution of the remaining classes. -/
theorem soy_corn_double_count :
    soy.cls = 39 ∧ corn.cls = 39
    ∧ ∀ area : AreaByClass,
        totalMethanePotential area
          = totalMethanePotential (fun c => if c = 39 then 0 else area c)
            + cropMethanePotential soy (area 39)
            + cropMethanePotential corn (area 39) := by
  refine ⟨rfl, rfl, fun area => ?_⟩
  simp only [totalMethanePotential, cropRegistry, List.map_cons, List.map_nil,
    List.sum_cons, List.sum_nil, cropMethanePotential,
    pasture, sugarcane, soy, corn, rice, coffee, citrus]
  norm_num
  ring

/-- A weight set passes the decidable check exactly when it sums to 1.0
within tolerance and has no negative entry. -/
theorem validWeightSet_iff (ws : List ℚ) :
    validWeightSet ws = true ↔ sumsToOne ws ∧ ¬ hasNegative ws := by
  unfold validWeightSet sumsToOne hasNegative
  simp only [Bool.and_eq_true, decide_eq_true_eq, List.all_eq_true]
  push_neg
  simp [not_lt]

/-- C4: `create_profile` fails with `InvalidWeightError` exactly when
one of the two weight sets does not sum to 1.0 within tolerance 1e-3 or
contains a negative value, and on success the stored profile carries the
input weights unchanged (no renormalization or clamping). -/
theorem create_profile_validation :
    ∀ (t i : List ℚ) (n : String),
      (create_profile t i n = Except.error WeightError.invalidWeight ↔
        (¬ sumsToOne t ∨ hasNegative t ∨ ¬ sumsToOne i ∨ hasNegative i))
      ∧ (∀ p, create_profile t i n = Except.ok p →
          p.top = t ∧ p.infra = i ∧ p.name = n) := by
  intro t i n
  have key : (validWeightSet t && validWeightSet i) = true ↔
      (sumsToOne t ∧ ¬ hasNegative t) ∧ (sumsToOne i ∧ ¬ hasNegative i) := by
    simp [Bool.and_eq_true, validWeightSet_iff]
  constructor
  · constructor
    · intro h
      by_contra hcon
      push_neg at hcon
      obtain ⟨h1, h2, h3, h4⟩ := hcon
      rw [create_profile, if_pos (key.mpr ⟨⟨h1, h2⟩, h3, h4⟩)] at h
      exact Except.noConfusion h
    · intro h
      rw [create_profile, if_neg]
      intro hvalid
      have hv := key.mp hvalid
      rcases h with h | h | h | h
      · exact h hv.1.1
      · exact hv.1.2 h
      · exact h hv.2.1
      · exact hv.2.2 h
  · intro p hp
    rw [create_profile] at hp
    by_cases hv : (validWeightSet t && validWeightSet i) = true
    · rw [if_pos hv] at hp
      cases hp
      exact ⟨rfl, rfl, rfl⟩
    · rw [if_neg hv] at hp
      exact Except.noConfusion hp

/-- Witness for C4: the pair `[0.5, 0.6]` sums to 1.1, outside the
tolerance, so construction fails with `InvalidWeightError`. -/
theorem create_profile_validation_witness :
    create_profile [0.5, 0.6] [1] "bad" = Except.error WeightError.invalidWeight :=
  ((create_profile_validation [0.5, 0.6] [1] "bad").1).mpr
    (Or.inl (by
      unfold sumsToOne weightTolerance
      simp only [List.sum_cons, List.sum_nil]
      rw [abs_le]
      push_neg
      intro
      norm_num))

/-- C5: with a well-formed category (cutoff strictly below the maximum
effective distance), the distance-decay score is 100 at or below the
cutoff, 0 at or beyond the maximum, the linear interpolation
`100 * (1 - d / max_distance)` strictly between them, and the two
boundary distances score exactly 100 and 0. -/
theorem distance_score_decay (mt md : ℚ) (h : mt < md) :
    (∀ d, d ≤ mt → distance_score mt md d = 100)
    ∧ (∀ d, md ≤ d → distance_score mt md d = 0)
    ∧ (∀ d, mt < d → d < md → distance_score mt md d = 100 * (1 - d / md))
    ∧ distance_score mt md mt = 100
    ∧ distance_score mt md md = 0 := by
  refine ⟨fun d hd => ?_, fun d hd => ?_, fun d h1 h2 => ?_, ?_, ?_⟩
  · simp only [distance_score]
    rw [if_pos hd]
  · simp only [distance_score]
    rw [if_neg (not_le.mpr (lt_of_lt_of_le h hd)), if_pos hd]
  · simp only [distance_score]
    rw [if_neg (not_le.mpr h1), if_neg (not_le.mpr h2)]
  · simp only [distance_score]
    rw [if_pos le_rfl]
  · simp only [distance_score]
    rw [if_neg (not_le.mpr h), if_pos le_rfl]

/-- Witness for C5 with cutoff 10 km and maximum 50 km: the boundary
distances score 100 and 0, and 30 km scores `100 * (1 - 30/50) = 40`. -/
theorem distance_score_decay_witness :
    distance_score 10 50 10 = 100 ∧ distance_score 10 50 50 = 0
    ∧ distance_score 10 50 30 = 40 := by
  have h := distance_score_decay 10 50 (by norm_num)
  refine ⟨h.2.2.2.1, h.2.2.2.2, ?_⟩
  rw [h.2.2.1 30 (by norm_num) (by norm_num)]
  norm_num

/-- C6: the restriction pillar score is 100 minus the cumulative
penalty (sum of `severity * importance` over present categories),
floored at 0: it is never negative, it is exactly 0 whenever the
penalty reaches 100, and below that it equals `100 - penalty`. -/
theorem restrictionScore_floor :
    ∀ rs : List RestrictionHit,
      restrictionScore rs = max (100 - restrictionPenalty rs) 0
      ∧ 0 ≤ restrictionScore rs
      ∧ (100 ≤ restrictionPenalty rs → restrictionScore rs = 0)
      ∧ (restrictionPenalty rs ≤ 100 →
          restrictionScore rs = 100 - restrictionPenalty rs) := by
  intro rs
  refine ⟨rfl, le_max_right _ _, fun h => ?_, fun h => ?_⟩
  · exact max_eq_right (by linarith)
  · exact max_eq_left (by linarith)

/-- Witness for C6: a present severity-10 category at importance 10
plus a present severity-9 one gives penalty 109 and score exactly 0;
a single present severity-10 category at default importance scores 90. -/
theorem restrictionScore_floor_witness :
    restrictionScore [⟨true, 10, 10⟩, ⟨true, 9, 1⟩] = 0
    ∧ restrictionScore [⟨true, 10, 1⟩, ⟨false, 9, 1⟩] = 90 := by
  constructor
  · exact (restrictionScore_floor _).2.2.1 (by norm_num [restrictionPenalty])
  · rw [(restrictionScore_floor _).2.2.2 (by norm_num [restrictionPenalty])]
    norm_num [restrictionPenalty]

/-- C7: the overall confidence is the minimum of the three pillar
confidences — it is bounded by each of them and equals one of them —
and in particular biomass 0.5 with the other two at 1.0 reports 0.5,
which is not the average `(0.5 + 1 + 1) / 3`. -/
theorem overallConfidence_is_min :
    (∀ b i r : ℚ,
      overallConfidence b i r ≤ b ∧ overallConfidence b i r ≤ i
      ∧ overallConfidence b i r ≤ r
      ∧ (overallConfidence b i r = b ∨ overallConfidence b i r = i
          ∨ overallConfidence b i r = r))
    ∧ overallConfidence 0.5 1 1 = 0.5
    ∧ overallConfidence 0.5 1 1 ≠ (0.5 + 1 + 1) / 3 := by
  refine ⟨fun b i r => ⟨min_le_left _ _,
    le_trans (min_le_right _ _) (min_le_left _ _),
    le_trans (min_le_right _ _) (min_le_right _ _), ?_⟩, ?_, ?_⟩
  · rcases min_choice b (min i r) with h | h
    · exact Or.inl h
    · rcases min_choice i r with h2 | h2
      · exact Or.inr (Or.inl (h.trans h2))
      · exact Or.inr (Or.inr (h.trans h2))
  · norm_num [overallConfidence, min_def]
  · norm_num [overallConfidence, min_def]

/-- C8: a category with no recorded distance scores 0 but keeps its
full weight inside the weighted sum of the pillar (it is not dropped from
the average), and it is counted as missing for confidence purposes. -/
theorem missing_distance_keeps_weight :
    ∀ (c : InfraCat) (pre post : List (InfraCat × Option ℚ)),
      categoryScore c none = 0
      ∧ infrastructureScoreRaw (pre ++ (c, none) :: post)
          = infrastructureScoreRaw pre + c.weight * 0 + infrastructureScoreRaw post
      ∧ missingCount (pre ++ (c, none) :: post)
          = missingCount pre + missingCount post + 1 := by
  intro c pre post
  refine ⟨rfl, ?_, ?_⟩
  · simp [infrastructureScoreRaw, categoryScore]
  · simp only [missingCount, List.filter_append, List.filter_cons,
      Option.isNone_none, List.length_append]
    simp
    omega

/-- C9: the error sentinel distance of the extraction of -1 km falls in the
`distance_km ≤ min_threshold` branch of the decay rule for every
category with a nonnegative cutoff, so a failed category scores the
maximum 100 rather than 0 or a missing-value marker. -/
theorem error_sentinel_scores_maximal :
    ∀ c : InfraCat, 0 ≤ c.min_threshold →
      categoryScore c (some errorSentinelDistanceKm) = 100
      ∧ categoryScore c (some errorSentinelDistanceKm) ≠ 0 := by
  intro c hc
  have h100 : categoryScore c (some errorSentinelDistanceKm) = 100 := by
    simp only [categoryScore, errorSentinelDistanceKm, distance_score]
    rw [if_pos (by linarith)]
  refine ⟨h100, ?_⟩
  rw [h100]
  norm_num

/-- Witness for C9 at a concrete category (weight 0.20, cutoff 2 km,
maximum 15 km). -/
theorem error_sentinel_scores_maximal_witness :
    categoryScore ⟨0.20, 2, 15⟩ (some errorSentinelDistanceKm) = 100 :=
  (error_sentinel_scores_maximal ⟨0.20, 2, 15⟩ (by norm_num)).1

end CP2B
